import Mathlib

/-!
Shallow embedding of `src/dashboard.py` (a Dash analytics dashboard for PAJ
case records) together with proofs about its loading, filtering, aggregation
and export pipeline.

Conventions of the embedding:
* a pandas `DataFrame` of records is a `List Record`;
* a timestamp parsed by `pd.to_datetime` is a `PDate` (year, month, day);
* a cell whose date fails to parse (`errors='coerce'` producing `NaT`) is a
  `RawRow` with `dataRaw = none`;
* bytes that `pd.read_excel` cannot parse (it raises) are modelled as an
  `UploadedFile` with `content = none`;
* a `raise`/`except` pair is modelled with `Except`: the `ValueError` raised
  for missing columns becomes `LoadError.schemaError`, the unsupported-format
  `ValueError` and unreadable-content errors become `LoadError.formatError`;
* `dash.no_update` on a state output is modelled by returning the previous
  value of that piece of state;
* the per-figure `fig.to_image` calls and the `weasyprint` document assembly
  are effectful and can raise; they are modelled by boolean parameters
  (`renderOk`, `assembleOk`) naming which of them succeed.
-/

namespace Dashboard

/-- A calendar timestamp as parsed by `pd.to_datetime` (year, month, day). -/
structure PDate where
  year : Nat
  month : Nat
  day : Nat
deriving DecidableEq, Repr

/-- Chronological order on parsed dates, as `pandas` compares timestamps. -/
def PDate.le (a b : PDate) : Bool :=
  decide (a.year < b.year ∨ (a.year = b.year ∧
    (a.month < b.month ∨ (a.month = b.month ∧ a.day ≤ b.day))))

/-- Chronological order on parsed dates, stated as a proposition. -/
def PDate.Le (a b : PDate) : Prop :=
  a.year < b.year ∨ (a.year = b.year ∧
    (a.month < b.month ∨ (a.month = b.month ∧ a.day ≤ b.day)))

/-- The decimal digit characters used when a `pandas` `Period` is formatted. -/
def digitChar : Nat → Char
  | 0 => '0'
  | 1 => '1'
  | 2 => '2'
  | 3 => '3'
  | 4 => '4'
  | 5 => '5'
  | 6 => '6'
  | 7 => '7'
  | 8 => '8'
  | _ => '9'

/-- The four zero-padded decimal digits of a year below 10000. -/
def pad4 (y : Nat) : List Char :=
  [digitChar (y / 1000 % 10), digitChar (y / 100 % 10),
   digitChar (y / 10 % 10), digitChar (y % 10)]

/-- The two zero-padded decimal digits of a month number. -/
def pad2 (m : Nat) : List Char :=
  [digitChar (m / 10 % 10), digitChar (m % 10)]

/-- The `AnoMês` key: `df[DATE_COLUMN].dt.to_period('M').astype(str)`
formats a monthly period as the text `YYYY-MM`. -/
def anoMesStr (y m : Nat) : String :=
  String.mk (pad4 y ++ '-' :: pad2 m)

/-- One validated record of the loaded `DataFrame`: the ten required columns
plus the derived columns `Ano`, `Mês` and `AnoMês` computed at load time. -/
structure Record where
  paj : String
  unidade : String
  assistido : String
  oficio : String
  pretensao : String
  dataInstauracao : PDate
  materia : String
  atribuicao : String
  defensor : String
  usuario : String
  ano : Nat
  mes : Nat
  anoMes : String
deriving DecidableEq, Repr

/-- One raw spreadsheet row projected onto the required columns; `dataRaw` is
the result of `pd.to_datetime(cell, errors='coerce')`: `none` means the date
cell failed to parse (`NaT`). -/
structure RawRow where
  paj : String
  unidade : String
  assistido : String
  oficio : String
  pretensao : String
  dataRaw : Option PDate
  materia : String
  atribuicao : String
  defensor : String
  usuario : String
deriving DecidableEq, Repr

/-- Build a validated record from a raw row whose date parsed to `d`,
together with the derived columns `Ano`, `Mês`, `AnoMês` (lines 78-81). -/
def mkRecord (r : RawRow) (d : PDate) : Record :=
  { paj := r.paj
    unidade := r.unidade
    assistido := r.assistido
    oficio := r.oficio
    pretensao := r.pretensao
    dataInstauracao := d
    materia := r.materia
    atribuicao := r.atribuicao
    defensor := r.defensor
    usuario := r.usuario
    ano := d.year
    mes := d.month
    anoMes := anoMesStr d.year d.month }

/-- `pd.to_datetime(errors='coerce')` followed by `dropna(subset=[DATE_COLUMN])`
(lines 76-81): rows whose date failed to parse are dropped, the rest get
their derived columns. -/
def processRows (rows : List RawRow) : List Record :=
  rows.filterMap (fun r => r.dataRaw.map (mkRecord r))

/-- `COLUMN_MAPPING` (lines 24-28): the fixed synonym renaming. -/
def COLUMN_MAPPING : List (String × String) :=
  [("Oficio", "Ofício"),
   ("Data da instauração", "Data da Instauração"),
   ("Materia", "Matéria")]

/-- `df.rename(columns=COLUMN_MAPPING)` applied to one column name. -/
def renameColumn (c : String) : String :=
  match COLUMN_MAPPING.find? (fun p => p.1 == c) with
  | some p => p.2
  | none => c

/-- `REQUIRED_COLUMNS` (line 29). -/
def REQUIRED_COLUMNS : List String :=
  ["PAJ", "Unidade", "Assistido", "Ofício", "Pretensão",
   "Data da Instauração", "Matéria", "Atribuição", "Defensor", "Usuário"]

/-- A spreadsheet that `pd.read_excel` managed to read: its column names and
its rows (projected onto the required columns; rows are only consumed after
the schema check passes). -/
structure ExcelTable where
  columns : List String
  rows : List RawRow
deriving DecidableEq

/-- An uploaded file: its name and, when `pd.read_excel` can parse the bytes,
the resulting table; `content = none` models fully malformed bytes on which
`pd.read_excel` raises. -/
structure UploadedFile where
  filename : String
  content : Option ExcelTable
deriving DecidableEq

/-- The taxonomy of load failures raised inside `parse_contents`: the
`ValueError` naming missing columns, and format errors (unsupported file
format, or content `pd.read_excel` cannot parse). All of them are caught by
the surrounding `except` and turned into a `None` return. -/
inductive LoadError where
  | schemaError (missing : List String)
  | formatError (msg : String)
deriving DecidableEq

/-- Whether the character list `pat` occurs at the start of `s`. -/
def beginsWith : List Char → List Char → Bool
  | [], _ => true
  | _ :: _, [] => false
  | p :: ps, c :: cs => p == c && beginsWith ps cs

/-- Whether the character list `pat` occurs anywhere inside `s`. -/
def containsSub (pat : List Char) : List Char → Bool
  | [] => pat.isEmpty
  | c :: cs => beginsWith pat (c :: cs) || containsSub pat cs

/-- Python `pat in s` on strings: substring containment. -/
def strContains (s pat : String) : Bool :=
  containsSub pat.data s.data

/-- The extension of a file name: the part after the last dot (the whole
name when there is no dot). Used to state what "unsupported extension"
means; the source itself only tests `'xls' in filename`. -/
def fileExtension (name : String) : String :=
  String.mk ((name.data.reverse.takeWhile (fun c => c != '.')).reverse)

/-- The file extensions the loader documents as supported, from its own
error message: "Formato de arquivo não suportado. Use .xlsx ou .xls". -/
def SUPPORTED_EXTENSIONS : List String := ["xlsx", "xls"]

/-- `parse_contents` (lines 65-87): checks `'xls' in filename`, reads the
sheet, renames columns via the synonym map, fails when required columns are
missing, converts the date column dropping unparseable rows, and derives
`Ano`, `Mês`, `AnoMês`. The error branch models the `raise`; the Python
`except` then maps any error to a `None` return (see `update_output`). -/
def parse_contents (file : UploadedFile) : Except LoadError (List Record) :=
  if strContains file.filename "xls" then
    match file.content with
    | none =>
        Except.error (LoadError.formatError
          ("Erro ao processar o arquivo carregado " ++ file.filename))
    | some t =>
        let cols := t.columns.map renameColumn
        let missing := REQUIRED_COLUMNS.filter (fun c => !(cols.contains c))
        if missing.isEmpty then
          Except.ok (processRows t.rows)
        else
          Except.error (LoadError.schemaError missing)
  else
    Except.error (LoadError.formatError
      "Formato de arquivo não suportado. Use .xlsx ou .xls")

/-- The status message shown next to the upload control. -/
inductive UploadStatus where
  | silent
  | success (filename : String)
  | failure (filename : String)
deriving DecidableEq

/-- `update_output` (lines 299-309): the upload callback. Its outputs are the
stored record set and the status message; `dash.no_update` is modelled by
returning the previous stored value. A parse failure (`None` in Python, an
`Except.error` here) or an empty parsed frame leaves the store untouched. -/
def update_output (contents : Option UploadedFile)
    (stored : Option (List Record)) : Option (List Record) × UploadStatus :=
  match contents with
  | none => (stored, UploadStatus.silent)
  | some file =>
    match parse_contents file with
    | Except.ok df =>
        if df.isEmpty then (stored, UploadStatus.failure file.filename)
        else (some df, UploadStatus.success file.filename)
    | Except.error _ => (stored, UploadStatus.failure file.filename)

/-- The filter controls: three multi-selects (each `None` or a list in Dash)
and an optional date range. -/
structure FilterSelection where
  materias : Option (List String)
  oficios : Option (List String)
  usuarios : Option (List String)
  startDate : Option PDate
  endDate : Option PDate
deriving DecidableEq

/-- Python truthiness of a Dash multi-select value: `None` and `[]` are
falsy, a non-empty list is truthy. -/
def truthy : Option (List String) → Bool
  | none => false
  | some l => !l.isEmpty

/-- One `if sel: dff = dff[dff[col].isin(sel)]` step, shared by the three
multi-select filters of `update_dashboard` and `generate_pdf`. -/
def filterIsin (sel : Option (List String)) (proj : Record → String)
    (dff : List Record) : List Record :=
  if truthy sel then dff.filter (fun r => (sel.getD []).contains (proj r))
  else dff

/-- The date-range steps (lines 389-394 and 492-497): both bounds, only
`start_date`, only `end_date`, or no date filter. -/
def applyDateRange (sd ed : Option PDate) (dff : List Record) : List Record :=
  match sd, ed with
  | some s, some e =>
      dff.filter (fun r => PDate.le s r.dataInstauracao
        && PDate.le r.dataInstauracao e)
  | some s, none => dff.filter (fun r => PDate.le s r.dataInstauracao)
  | none, some e => dff.filter (fun r => PDate.le r.dataInstauracao e)
  | none, none => dff

/-- The filter block of `update_dashboard` (lines 383-394). -/
def applyFiltersDash (f : FilterSelection) (dff : List Record) : List Record :=
  applyDateRange f.startDate f.endDate
    (filterIsin f.usuarios (fun r => r.usuario)
      (filterIsin f.oficios (fun r => r.oficio)
        (filterIsin f.materias (fun r => r.materia) dff)))

/-- The filter block of `generate_pdf` (lines 486-497), a line-for-line
duplicate of the one in `update_dashboard`. -/
def applyFiltersPdf (f : FilterSelection) (dff : List Record) : List Record :=
  applyDateRange f.startDate f.endDate
    (filterIsin f.usuarios (fun r => r.usuario)
      (filterIsin f.oficios (fun r => r.oficio)
        (filterIsin f.materias (fun r => r.materia) dff)))

/-- The distinct values of a column in order of first appearance. -/
def firstSeen : List String → List String
  | [] => []
  | x :: xs => x :: firstSeen (xs.filter (fun y => y != x))
termination_by l => l.length
decreasing_by
  simp only [List.length_cons]
  exact Nat.lt_succ_of_le (List.length_filter_le _ _)

/-- The unsorted (value, count) pairs behind `Series.value_counts()`. -/
def valueCountsPairs (l : List String) : List (String × Nat) :=
  (firstSeen l).map (fun v => (v, l.count v))

/-- Descending-count order on (value, count) pairs, the order in which
`value_counts()` and `nlargest` return their entries. -/
def countGe (a b : String × Nat) : Prop := b.2 ≤ a.2

instance : DecidableRel countGe :=
  fun a b => inferInstanceAs (Decidable (b.2 ≤ a.2))

instance : IsTotal (String × Nat) countGe :=
  ⟨fun a b => Nat.le_total b.2 a.2⟩

instance : IsTrans (String × Nat) countGe :=
  ⟨fun _ _ _ h1 h2 => Nat.le_trans h2 h1⟩

/-- `Series.value_counts()`: occurrence counts of each distinct value,
sorted by count descending (stably, so ties keep first-seen order). -/
def value_counts (l : List String) : List (String × Nat) :=
  List.insertionSort countGe (valueCountsPairs l)

/-- `Series.nlargest(n)` with the default `keep='first'`: stable descending
sort by count, then the first `n` entries. -/
def nlargest (n : Nat) (s : List (String × Nat)) : List (String × Nat) :=
  (List.insertionSort countGe s).take n

/-- Ascending order on the `AnoMês` string key, as `pandas` sorts text. -/
def keyLe (a b : String × Nat) : Prop := a.1 ≤ b.1

instance : DecidableRel keyLe :=
  fun a b => inferInstanceAs (Decidable (a.1 ≤ b.1))

instance : IsTotal (String × Nat) keyLe :=
  ⟨fun a b => le_total a.1 b.1⟩

instance : IsTrans (String × Nat) keyLe :=
  ⟨fun _ _ _ h1 h2 => le_trans h1 h2⟩

/-- `dff.groupby('AnoMês').size()` (lines 110 and 429): counts per distinct
key; `groupby` returns its keys sorted ascending. -/
def groupbySize (keys : List String) : List (String × Nat) :=
  List.insertionSort keyLe (valueCountsPairs keys)

/-- The monthly series (lines 110-112 and 429-430): `groupby('AnoMês').size()`
followed by `sort_values('AnoMês')`. -/
def evolucaoSeries (dff : List Record) : List (String × Nat) :=
  List.insertionSort keyLe (groupbySize (dff.map (fun r => r.anoMes)))

/-- The summary statistics computed from a filtered view: the total, the two
category breakdowns, the top-N user chart data, the monthly series and the
top-10 user table. -/
structure AggregateBundle where
  total : Nat
  materiaCounts : List (String × Nat)
  oficioCounts : List (String × Nat)
  userCounts : List (String × Nat)
  evolucao : List (String × Nat)
  top10Users : List (String × Nat)
deriving DecidableEq

/-- The aggregates computed by `update_dashboard` (lines 400-437) for the
interactive page. -/
def dashboardBundle (dff : List Record) (top_n : Nat) : AggregateBundle :=
  { total := dff.length
    materiaCounts := value_counts (dff.map (fun r => r.materia))
    oficioCounts := value_counts (dff.map (fun r => r.oficio))
    userCounts := nlargest top_n (value_counts (dff.map (fun r => r.usuario)))
    evolucao := evolucaoSeries dff
    top10Users := nlargest 10 (value_counts (dff.map (fun r => r.usuario))) }

/-- The aggregates recomputed by `generate_report_html_base64`
(lines 94-117) for the PDF report. -/
def reportBundle (dff : List Record) (top_n : Nat) : AggregateBundle :=
  { total := dff.length
    materiaCounts := value_counts (dff.map (fun r => r.materia))
    oficioCounts := value_counts (dff.map (fun r => r.oficio))
    userCounts := nlargest top_n (value_counts (dff.map (fun r => r.usuario)))
    evolucao := evolucaoSeries dff
    top10Users := nlargest 10 (value_counts (dff.map (fun r => r.usuario))) }

/-- The four chart names rasterized for the report (line 121). -/
def CHART_NAMES : List String := ["materia", "oficio", "usuarios", "evolucao"]

/-- The observable content of the HTML document built by
`generate_report_html_base64`: whether it is the no-data notice, which chart
images were successfully embedded (a failed `fig.to_image` is caught
per-figure and replaced by an error placeholder), and the aggregates. -/
structure ReportHtml where
  noDataNotice : Bool
  chartImages : List String
  bundle : Option AggregateBundle
deriving DecidableEq

/-- `generate_report_html_base64` (lines 89-161): on an empty view it returns
only the notice "Nenhum dado corresponde aos filtros selecionados."; else it
recomputes the aggregates and embeds one image per chart whose rasterization
succeeded. `renderOk` names which `fig.to_image` calls succeed. -/
def generate_report_html_base64 (dff : List Record) (top_n : Nat)
    (renderOk : String → Bool) : ReportHtml :=
  if dff.isEmpty then
    { noDataNotice := true, chartImages := [], bundle := none }
  else
    { noDataNotice := false
      chartImages := CHART_NAMES.filter renderOk
      bundle := some (reportBundle dff top_n) }

/-- `generate_pdf` (lines 472-510): the export callback. It returns `none`
for `dash.no_update` (no click, no stored data, stored frame empty, or the
`try` block raising) and `some html` for a served PDF built from `html`.
`assembleOk` models whether the `weasyprint` assembly inside the `try`
succeeds; a `false` value lands in the `except` branch. -/
def generate_pdf (n_clicks : Nat) (stored : Option (List Record))
    (f : FilterSelection) (top_n : Nat) (renderOk : String → Bool)
    (assembleOk : Bool) : Option ReportHtml :=
  if n_clicks = 0 then none
  else
    match stored with
    | none => none
    | some dffStored =>
      if dffStored.isEmpty then none
      else
        let dff := applyFiltersPdf f dffStored
        if assembleOk then some (generate_report_html_base64 dff top_n renderOk)
        else none

/-- The session state the export callback can observe: the stored record set
and the current filter controls. The Dash callback declares only the
`download-pdf` component as output, so these are read-only states. -/
structure SessionState where
  stored : Option (List Record)
  filters : FilterSelection
  topN : Nat

/-- One click of the export button: the callback's effect on the session
state (none: its only output is the download) paired with the download it
produces, if any. -/
def exportClick (st : SessionState) (n_clicks : Nat)
    (renderOk : String → Bool) (assembleOk : Bool) :
    SessionState × Option ReportHtml :=
  (st, generate_pdf n_clicks st.stored st.filters st.topN renderOk assembleOk)

/-- The filter selection with every control cleared. -/
def emptySelection : FilterSelection :=
  { materias := none, oficios := none, usuarios := none,
    startDate := none, endDate := none }

/-- The membership constraint a multi-select imposes, as the specification
words it: an unset or empty selection imposes no restriction, a non-empty
one requires membership. -/
def memConstraint : Option (List String) → String → Prop
  | none, _ => True
  | some l, v => l = [] ∨ v ∈ l

/-- The date constraint, as the specification words it: inclusive range when
both bounds are given, one-sided when only one is given. -/
def dateConstraint : Option PDate → Option PDate → PDate → Prop
  | some s, some e, d => PDate.Le s d ∧ PDate.Le d e
  | some s, none, d => PDate.Le s d
  | none, some e, d => PDate.Le d e
  | none, none, _ => True

/-- The sum of the counts of a (value, count) list. -/
def sumCounts (l : List (String × Nat)) : Nat :=
  (l.map (fun p => p.2)).sum

/-- A raw spreadsheet row used as concrete test data. -/
def sampleRaw (u : String) (d : Option PDate) : RawRow :=
  { paj := "1", unidade := "U", assistido := "A", oficio := "O",
    pretensao := "P", dataRaw := d, materia := "M", atribuicao := "T",
    defensor := "D", usuario := u }

/-- A concrete parsed date used as test data. -/
def dMar : PDate := { year := 2024, month := 3, day := 15 }

/-- A spreadsheet with all required columns, one parseable row and one row
whose date fails to parse. -/
def tableMixed : ExcelTable :=
  { columns := REQUIRED_COLUMNS
    rows := [sampleRaw "ana" (some dMar), sampleRaw "bia" none] }

/-- An upload of `tableMixed` under a supported name. -/
def fileMixed : UploadedFile :=
  { filename := "dados.xlsx", content := some tableMixed }

/-- A spreadsheet lacking the column `Matéria` (even after renaming). -/
def tableNoMateria : ExcelTable :=
  { columns := ["PAJ", "Unidade", "Assistido", "Ofício", "Pretensão",
                "Data da Instauração", "Atribuição", "Defensor", "Usuário"]
    rows := [sampleRaw "ana" (some dMar)] }

/-- An upload of `tableNoMateria` under a supported name. -/
def fileNoMateria : UploadedFile :=
  { filename := "dados.xlsx", content := some tableNoMateria }

/-- A well-formed spreadsheet uploaded under the name `relatorio.xlsm`:
the extension `xlsm` is not among the ones the loader documents as
supported, yet the name contains the substring `xls`. -/
def fileXlsm : UploadedFile :=
  { filename := "relatorio.xlsm"
    content := some { columns := REQUIRED_COLUMNS
                      rows := [sampleRaw "ana" (some dMar)] } }

/-- An upload whose bytes `pd.read_excel` cannot parse. -/
def fileBroken : UploadedFile :=
  { filename := "corrompido.xlsx", content := none }

/-- A concrete loaded record set with a single record. -/
def dffOne : List Record := processRows [sampleRaw "ana" (some dMar)]

/-- A filter selection naming a user absent from `dffOne`. -/
def selGhost : FilterSelection :=
  { materias := none, oficios := none, usuarios := some ["ghost"],
    startDate := none, endDate := none }

/-- A concrete session state (stored data plus filter selections). -/
def sessionOne : SessionState :=
  { stored := some dffOne, filters := emptySelection, topN := 10 }

theorem mem_of_mem_firstSeen :
    ∀ (l : List String) (v : String), v ∈ firstSeen l → v ∈ l := by
  intro l
  induction l using firstSeen.induct with
  | case1 =>
    intro v h
    simp [firstSeen] at h
  | case2 x xs ih =>
    intro v h
    rw [firstSeen] at h
    rcases List.mem_cons.mp h with h | h
    · exact h ▸ List.mem_cons_self x xs
    · exact List.mem_cons_of_mem x (List.mem_filter.mp (ih v h)).1

theorem count_filter_ne_add_count (xs : List String) (x : String) :
    (xs.filter (fun y => y != x)).length + xs.count x = xs.length := by
  induction xs with
  | nil => rfl
  | cons a as ih =>
    by_cases h : a = x
    · subst h
      simp only [List.filter_cons, bne_self_eq_false, List.count_cons_self,
        List.length_cons, Bool.false_eq_true, if_false]
      omega
    · have hx : x ≠ a := Ne.symm h
      simp only [List.filter_cons, List.count_cons_of_ne hx,
        List.length_cons, bne_iff_ne, ne_eq, h, not_false_eq_true, if_true]
      omega

theorem sum_count_firstSeen :
    ∀ (l : List String), ((firstSeen l).map (fun v => l.count v)).sum = l.length := by
  intro l
  induction l using firstSeen.induct with
  | case1 => simp [firstSeen]
  | case2 x xs ih =>
    rw [firstSeen]
    simp only [List.map_cons, List.sum_cons]
    have hmap : (firstSeen (xs.filter (fun y => y != x))).map
        (fun v => (x :: xs).count v) =
        (firstSeen (xs.filter (fun y => y != x))).map
        (fun v => (xs.filter (fun y => y != x)).count v) := by
      apply List.map_congr_left
      intro v hv
      have hvf := mem_of_mem_firstSeen _ v hv
      have hne : v ≠ x := by simpa using (List.mem_filter.mp hvf).2
      rw [List.count_cons_of_ne hne]
      exact (List.count_filter (by simpa using hne)).symm
    rw [hmap, ih, List.count_cons_self]
    have := count_filter_ne_add_count xs x
    simp only [List.length_cons]
    omega

theorem sumCounts_insertionSort (r : (String × Nat) → (String × Nat) → Prop)
    [DecidableRel r] (l : List (String × Nat)) :
    sumCounts (List.insertionSort r l) = sumCounts l :=
  List.Perm.sum_eq (List.Perm.map _ (List.perm_insertionSort r l))

theorem sumCounts_valueCountsPairs (l : List String) :
    sumCounts (valueCountsPairs l) = l.length := by
  rw [sumCounts, valueCountsPairs, List.map_map]
  exact sum_count_firstSeen l

theorem sumCounts_value_counts (l : List String) :
    sumCounts (value_counts l) = l.length := by
  rw [value_counts, sumCounts_insertionSort, sumCounts_valueCountsPairs]

theorem length_processRows (rows : List RawRow) :
    (processRows rows).length
      + (rows.filter (fun r => r.dataRaw.isNone)).length = rows.length := by
  induction rows with
  | nil => rfl
  | cons r rs ih =>
    cases h : r.dataRaw with
    | none =>
      simp only [processRows, List.filterMap_cons, h, Option.map_none',
        List.filter_cons, Option.isNone_none, List.length_cons, if_true] at *
      omega
    | some d =>
      simp only [processRows, List.filterMap_cons, h, Option.map_some',
        List.filter_cons, Option.isNone_some, List.length_cons,
        Bool.false_eq_true, if_false] at *
      omega

theorem PDate.le_iff (a b : PDate) : PDate.le a b = true ↔ PDate.Le a b := by
  simp [PDate.le, PDate.Le]

theorem mem_filterIsin (sel : Option (List String)) (proj : Record → String)
    (dff : List Record) (r : Record) :
    r ∈ filterIsin sel proj dff ↔ r ∈ dff ∧ memConstraint sel (proj r) := by
  cases sel with
  | none => simp [filterIsin, truthy, memConstraint]
  | some l =>
    cases l with
    | nil => simp [filterIsin, truthy, memConstraint]
    | cons a as =>
      simp [filterIsin, truthy, memConstraint, List.mem_filter]

theorem mem_applyDateRange (sd ed : Option PDate) (dff : List Record)
    (r : Record) :
    r ∈ applyDateRange sd ed dff ↔
      r ∈ dff ∧ dateConstraint sd ed r.dataInstauracao := by
  cases sd <;> cases ed <;>
    simp [applyDateRange, dateConstraint, List.mem_filter, PDate.le_iff]

/-- Claim C1: a record appears in the filtered view of `update_dashboard`
exactly when it is in the stored record set and satisfies every active
constraint (membership in each truthy multi-select, inclusive date range
with the one-sided variants), constraints combined by logical AND; an unset
or empty multi-select restricts nothing, and the empty filter selection
leaves the record set unchanged. -/
theorem C1_filter_membership :
    ∀ (dff : List Record) (f : FilterSelection) (r : Record),
      (r ∈ applyFiltersDash f dff ↔
        r ∈ dff ∧ memConstraint f.materias r.materia ∧
          memConstraint f.oficios r.oficio ∧
          memConstraint f.usuarios r.usuario ∧
          dateConstraint f.startDate f.endDate r.dataInstauracao) ∧
      applyFiltersDash emptySelection dff = dff := by
  intro dff f r
  constructor
  · rw [applyFiltersDash, mem_applyDateRange, mem_filterIsin, mem_filterIsin,
      mem_filterIsin]
    tauto
  · simp [applyFiltersDash, emptySelection, filterIsin, truthy, applyDateRange]

/-- Claim C2: the aggregates `generate_report_html_base64` recomputes for the
PDF (total, Matéria counts, Ofício counts, top-N user counts, monthly
series, top-10 user table) are equal to the ones `update_dashboard` computes
for the interactive page, applied to the same stored record set, filter
selection and top-N; the filter block `generate_pdf` runs is also equal to
the one `update_dashboard` runs. -/
theorem C2_report_matches_dashboard :
    ∀ (stored : List Record) (f : FilterSelection) (top_n : Nat),
      applyFiltersPdf f stored = applyFiltersDash f stored ∧
      reportBundle (applyFiltersPdf f stored) top_n =
        dashboardBundle (applyFiltersDash f stored) top_n := by
  intro stored f top_n
  exact ⟨rfl, rfl⟩

/-- Claim C3: for a readable spreadsheet carrying all required columns
(after synonym renaming), loading succeeds and yields exactly the rows whose
instauration date parsed: the row count of the result is the row count of
the sheet minus the number of rows with unparseable dates, and every
retained record carries the successfully parsed (non-null) date of the raw
row it came from. -/
theorem C3_drops_unparseable_dates :
    ∀ (file : UploadedFile) (t : ExcelTable),
      strContains file.filename "xls" = true →
      file.content = some t →
      (REQUIRED_COLUMNS.filter
        (fun c => !((t.columns.map renameColumn).contains c))).isEmpty = true →
      parse_contents file = Except.ok (processRows t.rows) ∧
      (processRows t.rows).length =
        t.rows.length - (t.rows.filter (fun r => r.dataRaw.isNone)).length ∧
      ∀ rec ∈ processRows t.rows,
        ∃ raw ∈ t.rows, raw.dataRaw = some rec.dataInstauracao := by
  intro file t hx hc hcols
  refine ⟨?_, ?_, ?_⟩
  · simp only [parse_contents, hx, hc, if_true]
    simp only [hcols, if_true]
  · have := length_processRows t.rows
    omega
  · intro rec hrec
    rcases List.mem_filterMap.mp hrec with ⟨raw, hraw, hmap⟩
    cases hdr : raw.dataRaw with
    | none =>
      rw [hdr] at hmap
      simp at hmap
    | some d =>
      rw [hdr] at hmap
      simp only [Option.map_some', Option.some.injEq] at hmap
      subst hmap
      refine ⟨raw, hraw, ?_⟩
      rw [hdr]
      rfl

/-- Witness for C3 on a concrete upload: two rows, one unparseable date,
yielding exactly one record. -/
theorem C3_witness :
    parse_contents fileMixed = Except.ok (processRows tableMixed.rows) ∧
    (processRows tableMixed.rows).length = tableMixed.rows.length -
      (tableMixed.rows.filter (fun r => r.dataRaw.isNone)).length ∧
    ∀ rec ∈ processRows tableMixed.rows,
      ∃ raw ∈ tableMixed.rows, raw.dataRaw = some rec.dataInstauracao :=
  C3_drops_unparseable_dates fileMixed tableMixed (by decide) rfl (by decide)

/-- Claim C6: in the aggregate bundle `update_dashboard` computes, the
per-category counts sum to the view's total record count, for the Matéria
breakdown, the Ofício breakdown and the monthly series. -/
theorem C6_counts_sum_to_total :
    ∀ (dff : List Record) (top_n : Nat),
      sumCounts (dashboardBundle dff top_n).materiaCounts =
        (dashboardBundle dff top_n).total ∧
      sumCounts (dashboardBundle dff top_n).oficioCounts =
        (dashboardBundle dff top_n).total ∧
      sumCounts (dashboardBundle dff top_n).evolucao =
        (dashboardBundle dff top_n).total := by
  intro dff top_n
  refine ⟨?_, ?_, ?_⟩
  · show sumCounts (value_counts (dff.map (fun r => r.materia))) = dff.length
    rw [sumCounts_value_counts, List.length_map]
  · show sumCounts (value_counts (dff.map (fun r => r.oficio))) = dff.length
    rw [sumCounts_value_counts, List.length_map]
  · show sumCounts (evolucaoSeries dff) = dff.length
    rw [evolucaoSeries, groupbySize, sumCounts_insertionSort,
      sumCounts_insertionSort, sumCounts_valueCountsPairs, List.length_map]

/-- Claim C4: when the uploaded sheet, after the synonym renaming, is
missing at least one required column, `parse_contents` fails with the
schema error naming exactly the missing columns (each of them required and
absent), no record set is returned, and the upload callback leaves the
stored record set unchanged. -/
theorem C4_missing_columns :
    ∀ (file : UploadedFile) (t : ExcelTable),
      strContains file.filename "xls" = true →
      file.content = some t →
      (REQUIRED_COLUMNS.filter
        (fun c => !((t.columns.map renameColumn).contains c))).isEmpty = false →
      parse_contents file = Except.error (LoadError.schemaError
        (REQUIRED_COLUMNS.filter
          (fun c => !((t.columns.map renameColumn).contains c)))) ∧
      (∀ c ∈ REQUIRED_COLUMNS.filter
          (fun c => !((t.columns.map renameColumn).contains c)),
        c ∈ REQUIRED_COLUMNS ∧ c ∉ t.columns.map renameColumn) ∧
      (REQUIRED_COLUMNS.filter
        (fun c => !((t.columns.map renameColumn).contains c))) ≠ [] ∧
      ∀ stored : Option (List Record),
        (update_output (some file) stored).1 = stored := by
  intro file t hx hc hmiss
  have hpc : parse_contents file = Except.error (LoadError.schemaError
      (REQUIRED_COLUMNS.filter
        (fun c => !((t.columns.map renameColumn).contains c)))) := by
    simp only [parse_contents, hx, hc, if_true]
    simp only [hmiss, Bool.false_eq_true, if_false]
  refine ⟨hpc, ?_, ?_, ?_⟩
  · intro c hcmem
    have h2 := List.mem_filter.mp hcmem
    exact ⟨h2.1, by simpa using h2.2⟩
  · intro hnil
    rw [hnil] at hmiss
    simp at hmiss
  · intro stored
    simp [update_output, hpc]

/-- Witness for C4 on a concrete upload missing the column Matéria: the
load fails with a schema error naming that column and the stored record set
survives unchanged. -/
theorem C4_witness :
    parse_contents fileNoMateria =
      Except.error (LoadError.schemaError ["Matéria"]) ∧
    (update_output (some fileNoMateria) (some dffOne)).1 = some dffOne := by
  have h := C4_missing_columns fileNoMateria tableNoMateria (by decide) rfl
    (by decide)
  refine ⟨?_, h.2.2.2 (some dffOne)⟩
  have hm : (REQUIRED_COLUMNS.filter
      (fun c =>
        !((tableNoMateria.columns.map renameColumn).contains c))) =
      ["Matéria"] := by decide
  rw [h.1, hm]

/-- Counterexample to claim C5 as stated: the upload `relatorio.xlsm` has an
extension outside the supported set the loader documents (`.xlsx`, `.xls`),
yet because the loader only tests the substring `xls` in the file name, the
well-formed content loads successfully instead of failing with a format
error. -/
theorem C5_counterexample :
    SUPPORTED_EXTENSIONS.contains (fileExtension fileXlsm.filename) = false ∧
    parse_contents fileXlsm =
      Except.ok [mkRecord (sampleRaw "ana" (some dMar)) dMar] := by
  constructor
  · decide
  · rfl

/-- Claim C5 (amended): for every input file whose name lacks the substring
`xls` (the check the loader actually performs, instead of an extension
check) or whose content is fully malformed, the loader fails with a format
error and never returns a successful record set, so "could not parse file"
is distinguishable from a successful load with no matching data. -/
theorem C5_amended_format_error :
    ∀ (file : UploadedFile),
      strContains file.filename "xls" = false ∨ file.content = none →
      ∃ msg, parse_contents file = Except.error (LoadError.formatError msg) ∧
        ∀ l : List Record, parse_contents file ≠ Except.ok l := by
  intro file h
  have hres : ∃ msg,
      parse_contents file = Except.error (LoadError.formatError msg) := by
    rcases h with h | h
    · exact ⟨"Formato de arquivo não suportado. Use .xlsx ou .xls",
        by simp only [parse_contents, h, Bool.false_eq_true, if_false]⟩
    · by_cases hx : strContains file.filename "xls"
      · exact ⟨"Erro ao processar o arquivo carregado " ++ file.filename,
          by simp only [parse_contents, hx, if_true, h]⟩
      · exact ⟨"Formato de arquivo não suportado. Use .xlsx ou .xls",
          by simp only [parse_contents, (Bool.not_eq_true _).mp hx,
            Bool.false_eq_true, if_false]⟩
  rcases hres with ⟨msg, hmsg⟩
  exact ⟨msg, hmsg, fun l hl => by rw [hmsg] at hl; cases hl⟩

/-- Witness for the amended C5 on a concrete malformed upload. -/
theorem C5_witness :
    ∃ msg, parse_contents fileBroken =
        Except.error (LoadError.formatError msg) ∧
      ∀ l : List Record, parse_contents fileBroken ≠ Except.ok l :=
  C5_amended_format_error fileBroken (Or.inr rfl)

theorem value_counts_sorted (l : List String) :
    List.Sorted countGe (value_counts l) :=
  List.sorted_insertionSort countGe (valueCountsPairs l)

theorem nlargest_value_counts (n : Nat) (l : List String) :
    nlargest n (value_counts l) = (value_counts l).take n := by
  rw [nlargest, List.Sorted.insertionSort_eq (value_counts_sorted l)]

theorem length_value_counts (l : List String) :
    (value_counts l).length = (firstSeen l).length := by
  rw [value_counts,
    (List.perm_insertionSort countGe (valueCountsPairs l)).length_eq,
    valueCountsPairs, List.length_map]

/-- Claim C7: for every view and every chart top-N choice among 10, 20, 30
and 50, the top-10 user table is the same (it does not depend on the chart
parameter), equals the first ten entries of the descending user counts, is
sorted by descending count, has exactly ten entries (or all users when
fewer than ten are distinct), and no user outside it counts more than any
user inside it. -/
theorem C7_top10_invariant :
    ∀ (dff : List Record) (top_n : Nat),
      top_n ∈ ([10, 20, 30, 50] : List Nat) →
      (dashboardBundle dff top_n).top10Users =
        (dashboardBundle dff 10).top10Users ∧
      (dashboardBundle dff top_n).top10Users =
        (value_counts (dff.map (fun r => r.usuario))).take 10 ∧
      List.Sorted countGe (dashboardBundle dff top_n).top10Users ∧
      (dashboardBundle dff top_n).top10Users.length =
        min 10 (firstSeen (dff.map (fun r => r.usuario))).length ∧
      ∀ p ∈ value_counts (dff.map (fun r => r.usuario)),
        p ∉ (dashboardBundle dff top_n).top10Users →
        ∀ q ∈ (dashboardBundle dff top_n).top10Users, p.2 ≤ q.2 := by
  intro dff top_n _
  have htake : (dashboardBundle dff top_n).top10Users =
      (value_counts (dff.map (fun r => r.usuario))).take 10 := by
    show nlargest 10 (value_counts (dff.map (fun r => r.usuario))) = _
    exact nlargest_value_counts 10 (dff.map (fun r => r.usuario))
  have hsorted := value_counts_sorted (dff.map (fun r => r.usuario))
  refine ⟨rfl, htake, ?_, ?_, ?_⟩
  · rw [htake]
    exact List.Pairwise.sublist (List.take_sublist 10 _) hsorted
  · rw [htake, List.length_take, length_value_counts]
  · intro p hp hnp q hq
    rw [htake] at hnp hq
    have hsplit := (List.take_append_drop 10
      (value_counts (dff.map (fun r => r.usuario)))).symm
    rw [hsplit] at hp hsorted
    have hdrop : p ∈ (value_counts (dff.map (fun r => r.usuario))).drop 10 :=
      (List.mem_append.mp hp).resolve_left hnp
    exact (List.pairwise_append.mp hsorted).2.2 q hq p hdrop

/-- Witness for C7: on a concrete view, the table for chart choice 20
equals the table for choice 10 and is the ten-entry head of the descending
user counts. -/
theorem C7_witness :
    (dashboardBundle dffOne 20).top10Users =
      (dashboardBundle dffOne 10).top10Users ∧
    (dashboardBundle dffOne 20).top10Users =
      (value_counts (dffOne.map (fun r => r.usuario))).take 10 :=
  ⟨(C7_top10_invariant dffOne 20 (by decide)).1,
   (C7_top10_invariant dffOne 20 (by decide)).2.1⟩

/-- Claim C9: an export clicked on a non-empty stored record set whose view
becomes empty after filtering still produces a document (assuming the
document assembly itself succeeds), and that document carries the notice
"Nenhum dado corresponde aos filtros selecionados." and embeds no chart
images. -/
theorem C9_empty_view_report :
    ∀ (rs : List Record) (f : FilterSelection) (top_n : Nat)
      (renderOk : String → Bool),
      rs ≠ [] →
      applyFiltersPdf f rs = [] →
      generate_pdf 1 (some rs) f top_n renderOk true =
        some { noDataNotice := true, chartImages := [], bundle := none } := by
  intro rs f top_n renderOk hne hempty
  simp [generate_pdf, hempty, generate_report_html_base64, hne]

/-- Witness for C9: a one-record store filtered by a user value absent from
it produces the no-data document with no images. -/
theorem C9_witness :
    generate_pdf 1 (some dffOne) selGhost 10 (fun _ => true) true =
      some { noDataNotice := true, chartImages := [], bundle := none } :=
  C9_empty_view_report dffOne selGhost 10 (fun _ => true) (by decide)
    (by decide)

/-- Counterexample to claim C10 as stated: with every chart rasterization
failing (and assembly succeeding), the export is not surfaced as a failure:
it produces a successful download whose document merely carries error
placeholders in place of all four images. -/
theorem C10_counterexample :
    (exportClick sessionOne 1 (fun _ => false) true).2 =
      some { noDataNotice := false, chartImages := [],
             bundle := some (reportBundle dffOne 10) } := by
  rfl

/-- Claim C10 (amended): the export callback never changes the stored
record set, the filter selections or the top-N choice (its only output is
the download), and when the document assembly raises, the exception is
caught and no download is produced, with no crash propagating. Chart
rasterization failures are caught per chart and do not fail the export. -/
theorem C10_amended_frame :
    ∀ (st : SessionState) (n_clicks : Nat) (renderOk : String → Bool)
      (assembleOk : Bool),
      (exportClick st n_clicks renderOk assembleOk).1 = st ∧
      (assembleOk = false →
        (exportClick st n_clicks renderOk assembleOk).2 = none) := by
  intro st n renderOk aOk
  refine ⟨rfl, ?_⟩
  intro haOk
  subst haOk
  show generate_pdf n st.stored st.filters st.topN renderOk false = none
  simp only [generate_pdf]
  by_cases hn : n = 0
  · simp [hn]
  · simp only [if_neg hn]
    cases st.stored with
    | none => rfl
    | some dffStored =>
      by_cases he : dffStored.isEmpty
      · simp [he]
      · simp [he]

theorem charLex_nil_iff (l : List Char) :
    List.Lex (fun a b : Char => a < b) l [] ↔ False :=
  ⟨fun h => List.Lex.not_nil_right _ _ h, False.elim⟩

theorem charLex_cons_iff (a b : Char) (l1 l2 : List Char) :
    List.Lex (fun x y : Char => x < y) (a :: l1) (b :: l2) ↔
      a < b ∨ (a = b ∧ List.Lex (fun x y : Char => x < y) l1 l2) := by
  constructor
  · intro h
    cases h with
    | cons h => exact Or.inr ⟨rfl, h⟩
    | rel h => exact Or.inl h
  · rintro (h | ⟨rfl, h⟩)
    · exact List.Lex.rel h
    · exact List.Lex.cons h

theorem digitChar_lt_iff : ∀ d1 < 10, ∀ d2 < 10,
    (digitChar d1 < digitChar d2 ↔ d1 < d2) := by decide

theorem digitChar_eq_iff : ∀ d1 < 10, ∀ d2 < 10,
    (digitChar d1 = digitChar d2 ↔ d1 = d2) := by decide

theorem digitChar_lt_mod_iff (a b : Nat) :
    (digitChar (a % 10) < digitChar (b % 10) ↔ a % 10 < b % 10) :=
  digitChar_lt_iff (a % 10) (Nat.mod_lt a (by decide))
    (b % 10) (Nat.mod_lt b (by decide))

theorem digitChar_eq_mod_iff (a b : Nat) :
    (digitChar (a % 10) = digitChar (b % 10) ↔ a % 10 = b % 10) :=
  digitChar_eq_iff (a % 10) (Nat.mod_lt a (by decide))
    (b % 10) (Nat.mod_lt b (by decide))

theorem anoMes_lt_iff (y1 m1 y2 m2 : Nat) (hy1 : y1 < 10000)
    (hy2 : y2 < 10000) (hm1 : m1 < 100) (hm2 : m2 < 100) :
    anoMesStr y1 m1 < anoMesStr y2 m2 ↔
      (y1 < y2 ∨ (y1 = y2 ∧ m1 < m2)) := by
  rw [String.lt_iff_toList_lt]
  show List.Lex (fun x y : Char => x < y)
      (pad4 y1 ++ '-' :: pad2 m1) (pad4 y2 ++ '-' :: pad2 m2) ↔ _
  simp only [pad4, pad2, List.cons_append, List.nil_append, charLex_cons_iff,
    charLex_nil_iff, digitChar_lt_mod_iff, digitChar_eq_mod_iff,
    lt_self_iff_false, and_false, or_false, false_or, true_and]
  have e1 : y1 / 100 / 10 = y1 / 1000 := by
    rw [Nat.div_div_eq_div_mul]
  have e2 : y2 / 100 / 10 = y2 / 1000 := by
    rw [Nat.div_div_eq_div_mul]
  have e3 : y1 / 10 / 10 = y1 / 100 := by
    rw [Nat.div_div_eq_div_mul]
  have e4 : y2 / 10 / 10 = y2 / 100 := by
    rw [Nat.div_div_eq_div_mul]
  have e5 : y1 / 1000 / 10 = 0 := by
    rw [Nat.div_div_eq_div_mul]
    exact Nat.div_eq_of_lt (by omega)
  have e6 : y2 / 1000 / 10 = 0 := by
    rw [Nat.div_div_eq_div_mul]
    exact Nat.div_eq_of_lt (by omega)
  have e7 : m1 / 10 / 10 = 0 := by
    rw [Nat.div_div_eq_div_mul]
    exact Nat.div_eq_of_lt (by omega)
  have e8 : m2 / 10 / 10 = 0 := by
    rw [Nat.div_div_eq_div_mul]
    exact Nat.div_eq_of_lt (by omega)
  omega

/-- Claim C8: the derived `AnoMês` keys, in the `YYYY-MM` text format the
loader computes, compare as strings exactly as the underlying (year, month)
pairs compare lexicographically (for years below 10000 and months below
100, which covers every date `pandas` can parse), and the monthly series of
the aggregate bundle is sorted ascending by that key. -/
theorem C8_anoMes_order :
    (∀ y1 m1 y2 m2 : Nat, y1 < 10000 → y2 < 10000 → m1 < 100 → m2 < 100 →
      (anoMesStr y1 m1 < anoMesStr y2 m2 ↔
        (y1 < y2 ∨ (y1 = y2 ∧ m1 < m2)))) ∧
    ∀ dff : List Record, List.Sorted keyLe (evolucaoSeries dff) := by
  refine ⟨fun y1 m1 y2 m2 hy1 hy2 hm1 hm2 =>
    anoMes_lt_iff y1 m1 y2 m2 hy1 hy2 hm1 hm2, fun dff => ?_⟩
  show List.Sorted keyLe
    (List.insertionSort keyLe (groupbySize (dff.map (fun r => r.anoMes))))
  exact List.sorted_insertionSort keyLe _

/-- Witness for C8 on concrete keys: March 2024 sorts before December 2024
as text, matching the pair order. -/
theorem C8_witness : anoMesStr 2024 3 < anoMesStr 2024 12 :=
  (C8_anoMes_order.1 2024 3 2024 12 (by decide) (by decide) (by decide)
    (by decide)).mpr (Or.inr ⟨rfl, by decide⟩)

/-- Witness for the amended C10: a concrete failing assembly leaves the
session state unchanged and yields no download. -/
theorem C10_witness :
    (exportClick sessionOne 1 (fun _ => true) false).1 = sessionOne ∧
    (exportClick sessionOne 1 (fun _ => true) false).2 = none :=
  ⟨(C10_amended_frame sessionOne 1 (fun _ => true) false).1,
   (C10_amended_frame sessionOne 1 (fun _ => true) false).2 rfl⟩

end Dashboard
